import Mathlib

/-
Verification of the two diagnostic scripts in this repository:
`scripts/tests/test-image-generation.py` (image-generation probe, suite
runner and CLI entry point) and `test-litellm-integration.py` (chat
completion probe through litellm).  Each Python function is embedded as a
Lean function over explicit inputs; the HTTP transport, the JSON decode of
the response body, and the file-system write are modelled as input data
(oracles), since the scripts only branch on their outcomes.
-/

namespace ImageGen

/-- Wire-ready request body built by `test_image_generation` (the Python
dict literal `payload`). -/
structure RequestPayload where
  model : String
  prompt : String
  n : Nat
  size : String
  response_format : String
  quality : String
deriving Repr, DecidableEq

/-- One element of the decoded body's `data` list; the script only reads
the optional `url` key. -/
structure ImageDatum where
  url : Option String
  b64_json : Option String
deriving Repr, DecidableEq

/-- Decoded JSON body of a 200 response, restricted to the keys the script
reads: `model` (via `data.get`) and `data` (via `data.get`). A missing key
is `none`. -/
structure ImageBody where
  model : Option String
  data : Option (List ImageDatum)
deriving Repr, DecidableEq

/-- Outcome of the single `requests.post` call, as the script observes it:
a response with a status code, raw text, and the result of `.json()`
(`none` models a `json.JSONDecodeError`), or one of the two caught
transport exceptions. -/
inductive Transport where
  | resp (statusCode : Nat) (text : String) (json : Option ImageBody)
  | connectionError
  | timeout
deriving Repr, DecidableEq

/-- Outcome of the `mkdir` / `open` / `json.dump` persistence block:
either it completes, or it raises an `OSError`-like exception whose message
is `msg` (caught by the script's generic handler). -/
inductive SaveResult where
  | ok
  | err (msg : String)
deriving Repr, DecidableEq

/-- Observable result of one call to `test_image_generation`: the returned
boolean, the printed lines, whether `requests.post` was reached, the
payload it was given, and the `output_file` argument. -/
structure CaseResult where
  passed : Bool
  lines : List String
  invoked : Bool
  sentPayload : Option RequestPayload
  outputFile : String
deriving Repr, DecidableEq

/-- Branch body of `test_image_generation` after the request has been
sent: returns the boolean outcome and the lines printed after the request
lines.  Mirrors the Python `try` body from the `status_code` check onward
together with the four `except` handlers. -/
def caseBody (url fmt outputFile : String) (transport : Transport)
    (save : SaveResult) : Bool × List String :=
  match transport with
  | Transport.connectionError =>
    (false, [s!"❌ Connection error: Cannot connect to {url}"])
  | Transport.timeout =>
    (false, ["❌ Timeout: Request took too long"])
  | Transport.resp status text json =>
    if status ≠ 200 then
      (false, [s!"❌ Error: HTTP {status}", s!"Response: {text}"])
    else
      match json with
      | none => (false, ["❌ Invalid JSON response"])
      | some body =>
        match save with
        | SaveResult.err msg => (false, [s!"❌ Error: {msg}"])
        | SaveResult.ok =>
          let modelReturned := body.model.getD "unknown"
          let imageCount := (body.data.getD []).length
          let successLines : List String :=
            ["✅ Success!",
             s!"  Model returned: {modelReturned}",
             s!"  Images generated: {imageCount}",
             s!"  Response saved to: {outputFile}"]
          let previewLines : List String :=
            if fmt = "url" then
              match body.data with
              | some (d :: _) =>
                let urlData := d.url.getD ""
                if urlData.startsWith "data:" then
                  ["  Image: Data URL (base64)"]
                else
                  let urlHead := urlData.take 80
                  [s!"  Image URL: {urlHead}..."]
              | _ => []
            else []
          (true, successLines ++ previewLines)

/-- Embedding of `test_image_generation(url, api_key, model, prompt, size,
format, output_file)`.  The empty string models a missing API key (Python
`if not api_key`).  On a non-empty key the function always reaches
`requests.post`, whose outcome is the `transport` input; the persistence
block's outcome is the `save` input. -/
def test_image_generation (url apiKey model prompt size fmt outputFile : String)
    (transport : Transport) (save : SaveResult) : CaseResult :=
  if apiKey = "" then
    { passed := false, lines := ["❌ Error: API_KEY not set"],
      invoked := false, sentPayload := none, outputFile := outputFile }
  else
    let payload : RequestPayload :=
      { model := model, prompt := prompt, n := 1, size := size,
        response_format := fmt, quality := "standard" }
    let promptHead := prompt.take 60
    let preLines : List String :=
      [s!"📤 Sending request to {url}/v1/images/generations",
       s!"  Model: {model}",
       s!"  Prompt: {promptHead}...",
       s!"  Format: {fmt}"]
    let outcome := caseBody url fmt outputFile transport save
    { passed := outcome.1, lines := preLines ++ outcome.2,
      invoked := true, sentPayload := some payload, outputFile := outputFile }

/-- One entry of the hardcoded `test_cases` list inside `run_test_suite`
(each Python dict has exactly the keys `name`, `model`, `prompt`,
`format`). -/
structure SuiteCase where
  name : String
  model : String
  prompt : String
  fmt : String
deriving Repr, DecidableEq

/-- The five hardcoded test cases of `run_test_suite`, in list order. -/
def image_test_cases : List SuiteCase :=
  [{ name := "Basic image generation", model := "gpt-image-1",
     prompt := "A serene mountain landscape at sunrise", fmt := "url" },
   { name := "Alternative alias (dall-e-3)", model := "dall-e-3",
     prompt := "A futuristic city with neon lights", fmt := "url" },
   { name := "Base64 JSON format", model := "gpt-image-1",
     prompt := "A peaceful forest with sunlight", fmt := "b64_json" },
   { name := "Detailed prompt", model := "gpt-image-1",
     prompt := "A woman with flowing hair in an elegant dress, standing in a sunlit garden with roses and butterflies, cinematic lighting, oil painting style",
     fmt := "url" },
   { name := "Abstract concept", model := "gpt-image-1",
     prompt := "The concept of artificial intelligence as neural networks of light",
     fmt := "url" }]

/-- Output file used for case number `i` (1-based), the Python f-string
literal in the suite loop. -/
def outputPath (i : Nat) : String := s!"/tmp/image_test_{i}.json"

/-- Environment of a whole run: the transport outcome and persistence
outcome that case number `i` (1-based) would observe if it sent its
request. -/
structure Env where
  transport : Nat → Transport
  save : Nat → SaveResult

/-- Loop body of `run_test_suite`: iterate the cases from 1-based index
`i`, calling `test_image_generation` with the hardcoded size
`'1024x1024'` and output file `/tmp/image_test_<i>.json`, collecting each
case's result in order. -/
def runCases (url apiKey : String) (env : Env) : Nat → List SuiteCase → List CaseResult
  | _, [] => []
  | i, c :: rest =>
    test_image_generation url apiKey c.model c.prompt "1024x1024" c.fmt
        (outputPath i) (env.transport i) (env.save i)
      :: runCases url apiKey env (i + 1) rest

/-- The `passed` / `failed` counters of `run_test_suite`, accumulated left
to right over the case results. -/
def tally : Nat → Nat → List CaseResult → Nat × Nat
  | p, f, [] => (p, f)
  | p, f, r :: rest =>
    if r.passed then tally (p + 1) f rest else tally p (f + 1) rest

/-- Observable result of `run_test_suite`: the per-case results in order,
the two counters, and the returned boolean `failed == 0`. -/
structure SuiteResult where
  caseResults : List CaseResult
  passed : Nat
  failed : Nat
  allPassed : Bool
deriving Repr, DecidableEq

/-- The suite loop of `run_test_suite`, generalised over the case list it
iterates (the Python function closes over the literal `test_cases` list;
`run_test_suite` below instantiates `cases := image_test_cases`). -/
def run_suite_on (url apiKey : String) (cases : List SuiteCase) (env : Env) :
    SuiteResult :=
  let rs := runCases url apiKey env 1 cases
  let pf := tally 0 0 rs
  { caseResults := rs, passed := pf.1, failed := pf.2, allPassed := pf.2 == 0 }

/-- Embedding of `run_test_suite(url, api_key)` with its hardcoded
five-case list. -/
def run_test_suite (url apiKey : String) (env : Env) : SuiteResult :=
  run_suite_on url apiKey image_test_cases env

/-- Parsed CLI arguments of the image script (`parse_args`). -/
structure Args where
  url : String
  apiKey : String
  model : String
  prompt : String
  size : String
  fmt : String
  output : String
  runSuite : Bool
  verbose : Bool

/-- Embedding of `main()`: dispatch on `--run-suite` and turn the boolean
success into the `sys.exit` code `0` or `1`.  Single-case mode makes one
invocation; it reads the environment at index 1. -/
def main_exit (args : Args) (env : Env) : Nat :=
  if args.runSuite then
    if (run_test_suite args.url args.apiKey env).allPassed then 0 else 1
  else
    if (test_image_generation args.url args.apiKey args.model args.prompt
          args.size args.fmt args.output (env.transport 1) (env.save 1)).passed
    then 0 else 1

end ImageGen

namespace Litellm

/-- The `function` record inside a tool call (the script reads only its
`name`). -/
structure ToolFunction where
  name : String
deriving Repr, DecidableEq

/-- One tool call record of a chat message. -/
structure ToolCall where
  function : ToolFunction
deriving Repr, DecidableEq

/-- A chat message as the script inspects it: `role`, nullable `content`,
and `tool_calls`, where `none` models the attribute being absent or
`None` (the script guards with `hasattr` and a truthiness test, so those
cases are indistinguishable from it). -/
structure Message where
  role : String
  content : Option String
  tool_calls : Option (List ToolCall)
deriving Repr, DecidableEq

/-- One element of `response.choices`. -/
structure Choice where
  message : Message
deriving Repr, DecidableEq

/-- Outcome of a `litellm.completion` call: the choices list of the
response, or a raised exception with its message. -/
abbrev CompletionResult := Except String (List Choice)

/-- Result of one `try` block of the script: the lines it printed and
whether its `except` handler ran. -/
structure TestRun where
  lines : List String
  errored : Bool
deriving Repr, DecidableEq

/-- The line printed for one tool call in Test 2's loop. -/
def toolCallLine (t : ToolCall) : String :=
  let fname := t.function.name
  s!"    - {fname}"

/-- Test 1 of the script: prints role, then `len(content)` and a content
preview; a `None` content raises a `TypeError` inside the `try` (caught
and reported), as does an empty `choices` list (`IndexError`). -/
def test1_run (r : CompletionResult) : TestRun :=
  match r with
  | Except.error e => { lines := [s!"✗ Error: {e}"], errored := true }
  | Except.ok [] =>
    { lines := ["✓ Response received", "✗ Error: list index out of range"],
      errored := true }
  | Except.ok (c :: _) =>
    let m := c.message
    let role := m.role
    match m.content with
    | none =>
      { lines := ["✓ Response received", s!"  - Role: {role}",
                  "✗ Error: object of type NoneType has no len"],
        errored := true }
    | some s =>
      let n := s.length
      let head := s.take 100
      { lines := ["✓ Response received", s!"  - Role: {role}",
                  s!"  - Content length: {n}", s!"  - Content: {head}..."],
        errored := false }

/-- Test 2 of the script (the tools probe): prints role and content
presence; prints content length/preview only when content is truthy;
prints the tool-call count and each function name when `tool_calls` is
present and non-empty, else prints `No tool_calls in response`.  No branch
of this inspection fails: only a raised exception (or empty `choices`)
reaches the `except` handler. -/
def test2_run (r : CompletionResult) : TestRun :=
  match r with
  | Except.error e => { lines := [s!"✗ Error: {e}"], errored := true }
  | Except.ok [] =>
    { lines := ["✓ Response received", "✗ Error: list index out of range"],
      errored := true }
  | Except.ok (c :: _) =>
    let m := c.message
    let role := m.role
    let hasContent := if m.content.isSome then "True" else "False"
    let base : List String :=
      ["✓ Response received", s!"  - Role: {role}",
       s!"  - Has content: {hasContent}"]
    let contentLines : List String :=
      match m.content with
      | some s =>
        if s == "" then []
        else
          let n := s.length
          let head := s.take 100
          [s!"  - Content length: {n}", s!"  - Content: {head}..."]
      | none => []
    let toolLines : List String :=
      match m.tool_calls with
      | some (tc :: tcs) =>
        let count := (tc :: tcs).length
        s!"  - Has tool_calls: {count} calls" :: (tc :: tcs).map toolCallLine
      | _ => ["  - No tool_calls in response"]
    { lines := base ++ contentLines ++ toolLines, errored := false }

/-- Detects the script's failure marker: the character `✗` at the start of
a printed line (stated over the character list of the string so that it
evaluates inside the kernel). -/
def startsWithMark (l : String) : Bool :=
  match l.data with
  | c :: _ => c == '✗'
  | [] => false

/-- Detects whether any printed line carries the script's failure
marker. -/
def hasErrorMarker (lines : List String) : Bool :=
  lines.any startsWithMark

/-- Embedding of the whole script at module scope: if the `litellm` import
fails it prints an explanation and calls `exit(0)`; otherwise it runs
Test 1 and Test 2 (each catching its own exceptions), prints the closing
banner, and falls off the end of the module — so the process exit code is
`0` on every path, whatever the two tests printed. -/
def script_run (importOk : Bool) (t1 t2 : CompletionResult) :
    List String × Nat :=
  if importOk then
    ("✓ litellm imported successfully"
       :: ((test1_run t1).lines ++ (test2_run t2).lines ++ ["✓ Test complete!"]),
     0)
  else
    (["✗ litellm not installed - install with: pip install litellm"], 0)

end Litellm

namespace ImageGen

/-- Predicate on a recorded payload: the payload, when a request was made
at all, carries `size = "1024x1024"`. -/
def payloadSize1024 : Option RequestPayload → Bool
  | none => true
  | some p => p.size == "1024x1024"

/-- Definition following the spec's words (for comparison with
`outputPath`, which is taken from the source): the spec states that the
output path of the i-th case is derived from its 1-based index as
`case_<i>.json`. -/
def spec_output_path (i : Nat) : String := s!"case_{i}.json"

/-- Concrete decoded body whose `data` list is empty. -/
def emptyDataBody : ImageBody :=
  { model := some "gpt-image-1", data := some [] }

/-- Concrete decoded body with one generated image. -/
def okBody : ImageBody :=
  { model := some "gpt-image-1",
    data := some [{ url := some "http://x/y.png", b64_json := none }] }

/-- Concrete environment in which every request would fail with a
connection error. -/
def offlineEnv : Env :=
  { transport := fun _ => Transport.connectionError, save := fun _ => SaveResult.ok }

/-- Concrete environment in which every request succeeds with one
generated image and every write succeeds. -/
def healthyEnv : Env :=
  { transport := fun _ => Transport.resp 200 "" (some okBody),
    save := fun _ => SaveResult.ok }

/-- The success boolean `main` branches on: the suite's returned boolean
in suite mode, the single case's returned boolean otherwise. -/
def overall_success (args : Args) (env : Env) : Bool :=
  if args.runSuite then (run_test_suite args.url args.apiKey env).allPassed
  else
    (test_image_generation args.url args.apiKey args.model args.prompt
      args.size args.fmt args.output (env.transport 1) (env.save 1)).passed

/-- Concrete suite-mode argument record. -/
def argsSuiteA : Args :=
  { url := "http://localhost:3000", apiKey := "test-key", model := "gpt-image-1",
    prompt := "p1", size := "512x512", fmt := "url", output := "/tmp/a.json",
    runSuite := true, verbose := false }

/-- Concrete suite-mode argument record differing from `argsSuiteA` in
every CLI field except `url` and `apiKey`. -/
def argsSuiteB : Args :=
  { url := "http://localhost:3000", apiKey := "test-key", model := "dall-e-3",
    prompt := "p2", size := "1792x1024", fmt := "b64_json", output := "/tmp/b.json",
    runSuite := true, verbose := true }

end ImageGen

namespace Litellm

/-- Concrete chat message with null content and an empty `tool_calls`
list. -/
def nullContentNoToolsMsg : Message :=
  { role := "assistant", content := none, tool_calls := some [] }

/-- Concrete ordinary chat message with textual content. -/
def helloMsg : Message :=
  { role := "assistant", content := some "Hello!", tool_calls := none }

end Litellm

namespace ImageGen

/-- The result record always carries back the `output_file` argument. -/
theorem test_outputFile (url apiKey model prompt size fmt o : String)
    (t : Transport) (s : SaveResult) :
    (test_image_generation url apiKey model prompt size fmt o t s).outputFile = o := by
  by_cases h : apiKey = "" <;> simp [test_image_generation, h]

/-- With a non-empty API key the function always reaches `requests.post`. -/
theorem test_invoked (url apiKey model prompt size fmt o : String)
    (t : Transport) (s : SaveResult) (h : apiKey ≠ "") :
    (test_image_generation url apiKey model prompt size fmt o t s).invoked = true := by
  simp [test_image_generation, h]

/-- With an empty API key the function returns the config-error result
without reaching `requests.post`. -/
theorem test_empty_key (url model prompt size fmt o : String)
    (t : Transport) (s : SaveResult) :
    test_image_generation url "" model prompt size fmt o t s =
      { passed := false, lines := ["❌ Error: API_KEY not set"],
        invoked := false, sentPayload := none, outputFile := o } := by
  simp [test_image_generation]

/-- When a request is made, its payload's `size` field is the `size`
argument. -/
theorem test_payload_size (url apiKey model prompt fmt o : String)
    (t : Transport) (s : SaveResult) :
    payloadSize1024
      ((test_image_generation url apiKey model prompt "1024x1024" fmt o t s).sentPayload)
      = true := by
  by_cases h : apiKey = "" <;> simp [test_image_generation, h, payloadSize1024]

/-- The two accumulating counters of the suite loop count exactly the
passing and the failing case results. -/
theorem tally_spec (rs : List CaseResult) : ∀ p f, tally p f rs =
    (p + (rs.filter (fun r => r.passed)).length,
     f + (rs.filter (fun r => !r.passed)).length) := by
  induction rs with
  | nil => intro p f; simp [tally]
  | cons r rest ih =>
    intro p f
    cases hp : r.passed <;> simp [tally, hp, ih] <;> omega

/-- The suite loop produces one result per case. -/
theorem runCases_length (url apiKey : String) (env : Env) (cases : List SuiteCase) :
    ∀ k, (runCases url apiKey env k cases).length = cases.length := by
  induction cases with
  | nil => intro k; simp [runCases]
  | cons c rest ih => intro k; simp [runCases, ih]

/-- The i-th (0-based) result of the suite loop started at index `k` is
the invocation of case i with 1-based index `k + i`. -/
theorem runCases_get (url apiKey : String) (env : Env) (cases : List SuiteCase) :
    ∀ k i, (runCases url apiKey env k cases).get? i =
      (cases.get? i).map (fun c =>
        test_image_generation url apiKey c.model c.prompt "1024x1024" c.fmt
          (outputPath (k + i)) (env.transport (k + i)) (env.save (k + i))) := by
  induction cases with
  | nil => intro k i; simp [runCases]
  | cons c rest ih =>
    intro k i
    cases i with
    | zero => simp [runCases]
    | succ j =>
      have harith : k + (j + 1) = (k + 1) + j := by omega
      simp only [runCases, List.get?_cons_succ, harith]
      exact ih (k + 1) j

/-- No case of a suite with a non-empty key is skipped: every result
records that the transport was invoked. -/
theorem runCases_all_invoked (url apiKey : String) (env : Env)
    (cases : List SuiteCase) (h : apiKey ≠ "") :
    ∀ k, (runCases url apiKey env k cases).all (fun r => r.invoked) = true := by
  induction cases with
  | nil => intro k; simp [runCases]
  | cons c rest ih =>
    intro k
    have hi := test_invoked url apiKey c.model c.prompt "1024x1024" c.fmt
      (outputPath k) (env.transport k) (env.save k) h
    simp [runCases, hi, ih]

/-- Every payload a suite run sends has `size = "1024x1024"`. -/
theorem runCases_payload_size (url apiKey : String) (env : Env)
    (cases : List SuiteCase) :
    ∀ k, (runCases url apiKey env k cases).all
      (fun r => payloadSize1024 r.sentPayload) = true := by
  induction cases with
  | nil => intro k; simp [runCases]
  | cons c rest ih =>
    intro k
    have hp := test_payload_size url apiKey c.model c.prompt c.fmt
      (outputPath k) (env.transport k) (env.save k)
    simp [runCases, hp, ih]

/-- With an empty API key, every case of the loop fails without invoking
the transport. -/
theorem runCases_empty_key (url : String) (env : Env) (cases : List SuiteCase) :
    ∀ k, (runCases url "" env k cases).all (fun r => !r.invoked && !r.passed) = true
       ∧ (runCases url "" env k cases).filter (fun r => r.passed) = []
       ∧ (runCases url "" env k cases).filter (fun r => !r.passed)
           = runCases url "" env k cases := by
  induction cases with
  | nil => intro k; simp [runCases]
  | cons c rest ih =>
    intro k
    have h := ih (k + 1)
    simp [runCases, test_empty_key, h.1, h.2.1, h.2.2]

/-- The failure counter is zero exactly when every case result passed. -/
theorem filter_not_passed_len_zero (rs : List CaseResult) :
    ((rs.filter (fun r => !r.passed)).length = 0)
      ↔ (rs.all (fun r => r.passed) = true) := by
  induction rs with
  | nil => simp
  | cons r rest ih => cases hp : r.passed <;> simp [hp, ih]

/-- Boolean form: `failed == 0` is the conjunction of the per-case
verdicts. -/
theorem failed_beq_zero (rs : List CaseResult) :
    (((rs.filter (fun r => !r.passed)).length == 0) : Bool)
      = rs.all (fun r => r.passed) := by
  induction rs with
  | nil => rfl
  | cons r rest ih => cases hp : r.passed <;> simp [hp, ih]

/-- Every case result is counted exactly once, as a pass or as a
failure. -/
theorem filter_passed_split (rs : List CaseResult) :
    (rs.filter (fun r => r.passed)).length
      + (rs.filter (fun r => !r.passed)).length = rs.length := by
  induction rs with
  | nil => simp
  | cons r rest ih => cases hp : r.passed <;> simp [hp, ih] <;> omega

end ImageGen

section Claims

open ImageGen

/-- C1 counterexample: a 200 response whose body decodes as JSON with an
empty list under the `data` key does NOT make `test_image_generation`
return `False` — at this concrete input the function returns `True`,
refuting the claim that such a response yields `passed = false`. -/
theorem C1_counterexample :
    (test_image_generation "http://localhost:3000" "test-key" "gpt-image-1"
      "A serene mountain landscape at sunrise" "1024x1024" "url" "/tmp/out.json"
      (Transport.resp 200 "" (some emptyDataBody)) SaveResult.ok).passed = true := by
  decide

/-- C1 (amended): for every image-case invocation with a non-empty API key
whose transport result is a 200 response decoding as JSON with an empty
list under `data`, and whose write succeeds, the function returns
`passed = true` and reports `Images generated: 0`; the validator never
checks that the `data` list is non-empty. -/
theorem C1_empty_data_still_passes (url apiKey model prompt size fmt out text : String)
    (body : ImageBody) (hkey : apiKey ≠ "") (hdata : body.data = some []) :
    (test_image_generation url apiKey model prompt size fmt out
        (Transport.resp 200 text (some body)) SaveResult.ok).passed = true
    ∧ "  Images generated: 0" ∈
      (test_image_generation url apiKey model prompt size fmt out
        (Transport.resp 200 text (some body)) SaveResult.ok).lines := by
  refine ⟨by simp [test_image_generation, hkey, caseBody], ?_⟩
  have hline : ("  Images generated: 0" : String)
      = s!"  Images generated: {(0 : Nat)}" := by decide
  rw [hline]
  simp [test_image_generation, hkey, caseBody, hdata]

/-- C1 witness: the amended theorem applied at a concrete input. -/
theorem C1_witness :
    (("test-key" : String) ≠ "" ∧ emptyDataBody.data = some [])
    ∧ ((test_image_generation "http://localhost:3000" "test-key" "gpt-image-1"
          "prompt" "1024x1024" "url" "/tmp/out.json"
          (Transport.resp 200 "" (some emptyDataBody)) SaveResult.ok).passed = true
       ∧ "  Images generated: 0" ∈
         (test_image_generation "http://localhost:3000" "test-key" "gpt-image-1"
           "prompt" "1024x1024" "url" "/tmp/out.json"
           (Transport.resp 200 "" (some emptyDataBody)) SaveResult.ok).lines) :=
  ⟨⟨by decide, rfl⟩,
   C1_empty_data_still_passes "http://localhost:3000" "test-key" "gpt-image-1"
     "prompt" "1024x1024" "url" "/tmp/out.json" "" emptyDataBody (by decide) rfl⟩

/-- C2 counterexample: an otherwise-valid 200 response whose persistence
write fails does NOT keep `passed = true` — at this concrete input the
write failure is caught by the generic `except Exception` handler and the
function returns `False`, refuting the claim. -/
theorem C2_counterexample :
    (test_image_generation "http://localhost:3000" "test-key" "gpt-image-1" "test"
      "1024x1024" "url" "/tmp/out.json" (Transport.resp 200 "" (some okBody))
      (SaveResult.err "disk full")).passed = false := by
  decide

/-- C2 (amended): a failure while writing the response body to the output
file flips the case's outcome to `passed = false` (the write happens
inside the `try` block before `return True`, so the exception is caught
and reported by the generic handler, which returns `False`). -/
theorem C2_save_failure_fails (url apiKey model prompt size fmt out text msg : String)
    (body : ImageBody) (hkey : apiKey ≠ "") :
    (test_image_generation url apiKey model prompt size fmt out
        (Transport.resp 200 text (some body)) (SaveResult.err msg)).passed = false
    ∧ s!"❌ Error: {msg}" ∈
      (test_image_generation url apiKey model prompt size fmt out
        (Transport.resp 200 text (some body)) (SaveResult.err msg)).lines := by
  constructor <;> simp [test_image_generation, hkey, caseBody]

/-- C2 witness: the amended theorem applied at a concrete input. -/
theorem C2_witness :
    (("test-key" : String) ≠ "")
    ∧ ((test_image_generation "http://localhost:3000" "test-key" "gpt-image-1" "test"
          "1024x1024" "url" "/tmp/out.json" (Transport.resp 200 "" (some okBody))
          (SaveResult.err "disk full")).passed = false
       ∧ s!"❌ Error: disk full" ∈
         (test_image_generation "http://localhost:3000" "test-key" "gpt-image-1" "test"
           "1024x1024" "url" "/tmp/out.json" (Transport.resp 200 "" (some okBody))
           (SaveResult.err "disk full")).lines) :=
  ⟨by decide,
   C2_save_failure_fails "http://localhost:3000" "test-key" "gpt-image-1" "test"
     "1024x1024" "url" "/tmp/out.json" "" "disk full" okBody (by decide)⟩

/-- C3: for every invocation with a non-empty API key whose HTTP response
has a status code different from 200, the outcome is `passed = false`, the
printed summary contains the line `❌ Error: HTTP <status>` carrying the
literal status code, and the outcome is a handled result produced after
the invocation (the embedding returns a result record with
`invoked = true`; no fault escapes). -/
theorem C3_non200_fails (url apiKey model prompt size fmt out text : String)
    (status : Nat) (json : Option ImageBody) (save : SaveResult)
    (hkey : apiKey ≠ "") (hstatus : status ≠ 200) :
    (test_image_generation url apiKey model prompt size fmt out
        (Transport.resp status text json) save).passed = false
    ∧ s!"❌ Error: HTTP {status}" ∈
      (test_image_generation url apiKey model prompt size fmt out
        (Transport.resp status text json) save).lines
    ∧ (test_image_generation url apiKey model prompt size fmt out
        (Transport.resp status text json) save).invoked = true := by
  refine ⟨?_, ?_, ?_⟩ <;> simp [test_image_generation, hkey, caseBody, hstatus]

/-- C3 witness: the theorem applied at status 500 with body
`server error`. -/
theorem C3_witness :
    (("test-key" : String) ≠ "" ∧ (500 : Nat) ≠ 200)
    ∧ ((test_image_generation "http://localhost:3000" "test-key" "gpt-image-1" "test"
          "1024x1024" "url" "/tmp/out.json"
          (Transport.resp 500 "server error" none) SaveResult.ok).passed = false
       ∧ s!"❌ Error: HTTP {(500 : Nat)}" ∈
         (test_image_generation "http://localhost:3000" "test-key" "gpt-image-1" "test"
           "1024x1024" "url" "/tmp/out.json"
           (Transport.resp 500 "server error" none) SaveResult.ok).lines
       ∧ (test_image_generation "http://localhost:3000" "test-key" "gpt-image-1" "test"
           "1024x1024" "url" "/tmp/out.json"
           (Transport.resp 500 "server error" none) SaveResult.ok).invoked = true) :=
  ⟨⟨by decide, by decide⟩,
   C3_non200_fails "http://localhost:3000" "test-key" "gpt-image-1" "test"
     "1024x1024" "url" "/tmp/out.json" "server error" 500 none SaveResult.ok
     (by decide) (by decide)⟩

/-- C4: for every case list (the suite loop generalised over the list it
iterates; `run_test_suite` is its instance at the hardcoded five cases),
the returned boolean `allPassed` is `failed == 0`, and it is true iff
every per-case `passed` is true; the two counters partition the case
results; for the empty case list the run is vacuously successful with
`failed = 0`. -/
theorem C4_allPassed_iff (url apiKey : String) (cases : List SuiteCase) (env : Env) :
    ((run_suite_on url apiKey cases env).allPassed
       = (((run_suite_on url apiKey cases env).failed == 0) : Bool))
    ∧ ((run_suite_on url apiKey cases env).allPassed
       = (run_suite_on url apiKey cases env).caseResults.all (fun r => r.passed))
    ∧ ((run_suite_on url apiKey cases env).passed
        + (run_suite_on url apiKey cases env).failed
        = (run_suite_on url apiKey cases env).caseResults.length)
    ∧ (run_suite_on url apiKey [] env).allPassed = true
    ∧ (run_suite_on url apiKey [] env).failed = 0
    ∧ run_test_suite url apiKey env = run_suite_on url apiKey image_test_cases env := by
  have hts := tally_spec (runCases url apiKey env 1 cases) 0 0
  refine ⟨rfl, ?_, ?_, rfl, rfl, rfl⟩
  · simp only [run_suite_on, hts, Nat.zero_add]
    exact failed_beq_zero (runCases url apiKey env 1 cases)
  · simp only [run_suite_on, hts, Nat.zero_add]
    exact filter_passed_split (runCases url apiKey env 1 cases)

/-- C5: for every case list of length N and non-empty API key, the suite
loop produces exactly N outcomes, every outcome records a transport
invocation (so exactly N invocations are made), and the i-th (0-based)
outcome is exactly the invocation of the i-th case at 1-based index
`1 + i` — in list order, no case skipped or retried, and independent of
what any other case's transport returned (each case only reads the
environment at its own index, so one case's failure never prevents the
subsequent cases from running). -/
theorem C5_one_outcome_per_case (url apiKey : String) (cases : List SuiteCase)
    (env : Env) (hkey : apiKey ≠ "") :
    (run_suite_on url apiKey cases env).caseResults.length = cases.length
    ∧ (run_suite_on url apiKey cases env).caseResults.all (fun r => r.invoked) = true
    ∧ ∀ i, (run_suite_on url apiKey cases env).caseResults.get? i
        = (cases.get? i).map (fun c =>
            test_image_generation url apiKey c.model c.prompt "1024x1024" c.fmt
              (outputPath (1 + i)) (env.transport (1 + i)) (env.save (1 + i))) := by
  refine ⟨runCases_length url apiKey env cases 1,
          runCases_all_invoked url apiKey env cases hkey 1,
          fun i => runCases_get url apiKey env cases 1 i⟩

/-- C5 witness: the theorem applied to the hardcoded five-case list with a
healthy environment, with the order statement instantiated at index 0. -/
theorem C5_witness :
    (("test-key" : String) ≠ "")
    ∧ (run_suite_on "u" "test-key" image_test_cases healthyEnv).caseResults.length
        = image_test_cases.length
    ∧ (run_suite_on "u" "test-key" image_test_cases healthyEnv).caseResults.all
        (fun r => r.invoked) = true
    ∧ (run_suite_on "u" "test-key" image_test_cases healthyEnv).caseResults.get? 0
        = (image_test_cases.get? 0).map (fun c =>
            test_image_generation "u" "test-key" c.model c.prompt "1024x1024" c.fmt
              (outputPath (1 + 0)) (healthyEnv.transport (1 + 0))
              (healthyEnv.save (1 + 0))) := by
  have h := C5_one_outcome_per_case "u" "test-key" image_test_cases healthyEnv
    (by decide)
  exact ⟨by decide, h.1, h.2.1, h.2.2 0⟩

set_option maxRecDepth 8192 in
/-- C6 counterexample: the litellm script's process exit code is 0 even
when its Test 2 fails (the exception is caught, a `✗ Error` line is
printed, and the script falls off the end of the module), refuting the
claim that either script exits 0 iff the run succeeded. -/
theorem C6_counterexample :
    (Litellm.script_run true (Except.ok [{ message := Litellm.helloMsg }])
        (Except.error "APIConnectionError")).2 = 0
    ∧ Litellm.hasErrorMarker
        (Litellm.script_run true (Except.ok [{ message := Litellm.helloMsg }])
          (Except.error "APIConnectionError")).1 = true
    ∧ (Litellm.test2_run (Except.error "APIConnectionError")).errored = true := by
  decide

/-- C6 (amended): the image-generation script exits 0 iff the run
succeeded overall (the single case passed, or every suite case passed) and
exits 1 otherwise; the litellm integration script exits 0 on every path,
regardless of whether its tests succeeded. -/
theorem C6_exit_codes (args : Args) (env : Env) (importOk : Bool)
    (t1 t2 : Litellm.CompletionResult) :
    ((main_exit args env = 0) ↔ overall_success args env = true)
    ∧ ((main_exit args env = 1) ↔ overall_success args env = false)
    ∧ (Litellm.script_run importOk t1 t2).2 = 0 := by
  refine ⟨?_, ?_, ?_⟩
  · unfold main_exit overall_success
    by_cases hs : args.runSuite
    · cases hb : (run_test_suite args.url args.apiKey env).allPassed <;> simp [hs, hb]
    · cases hb : (test_image_generation args.url args.apiKey args.model args.prompt
          args.size args.fmt args.output (env.transport 1) (env.save 1)).passed <;>
        simp [hs, hb]
  · unfold main_exit overall_success
    by_cases hs : args.runSuite
    · cases hb : (run_test_suite args.url args.apiKey env).allPassed <;> simp [hs, hb]
    · cases hb : (test_image_generation args.url args.apiKey args.model args.prompt
          args.size args.fmt args.output (env.transport 1) (env.save 1)).passed <;>
        simp [hs, hb]
  · cases importOk <;> rfl

/-- C7 counterexample: a chat message with null content and an empty
`tool_calls` list does NOT yield a failed case — the inspection completes
without reaching the `except` handler, prints no `✗` marker (only
`No tool_calls in response`), and the script still exits 0, refuting the
claim that this yields `passed = false`. -/
theorem C7_counterexample :
    (Litellm.test2_run
        (Except.ok [{ message := Litellm.nullContentNoToolsMsg }])).errored = false
    ∧ Litellm.hasErrorMarker
        (Litellm.test2_run
          (Except.ok [{ message := Litellm.nullContentNoToolsMsg }])).lines = false
    ∧ "  - No tool_calls in response" ∈
        (Litellm.test2_run
          (Except.ok [{ message := Litellm.nullContentNoToolsMsg }])).lines
    ∧ (Litellm.script_run true (Except.ok [{ message := Litellm.helloMsg }])
        (Except.ok [{ message := Litellm.nullContentNoToolsMsg }])).2 = 0 := by
  decide

/-- C7 (amended): for a chat response whose message content is null, if
`tool_calls` is a non-empty list the inspection succeeds (no exception
reaches the handler) and the summary lists the function name of every tool
call; if `tool_calls` is empty the inspection also succeeds and merely
prints `No tool_calls in response` — no branch makes the case fail. -/
theorem C7_tool_calls_reporting (role : String) (tc : Litellm.ToolCall)
    (tcs : List Litellm.ToolCall) :
    ((Litellm.test2_run (Except.ok
        [{ message := { role := role, content := none,
                        tool_calls := some (tc :: tcs) } }])).errored = false)
    ∧ (∀ t ∈ tc :: tcs, Litellm.toolCallLine t ∈
        (Litellm.test2_run (Except.ok
          [{ message := { role := role, content := none,
                          tool_calls := some (tc :: tcs) } }])).lines)
    ∧ ((Litellm.test2_run (Except.ok
        [{ message := { role := role, content := none,
                        tool_calls := some [] } }])).errored = false)
    ∧ ("  - No tool_calls in response" ∈
        (Litellm.test2_run (Except.ok
          [{ message := { role := role, content := none,
                          tool_calls := some [] } }])).lines) := by
  refine ⟨rfl, ?_, rfl, ?_⟩
  · intro t ht
    have hmap : Litellm.toolCallLine t ∈ (tc :: tcs).map Litellm.toolCallLine :=
      List.mem_map_of_mem _ ht
    simp only [Litellm.test2_run, List.mem_append, List.mem_cons]
    simp at hmap ⊢
    tauto
  · simp [Litellm.test2_run]

/-- C8 counterexample: with the API key missing, the suite run does NOT
abort — all five hardcoded cases are still iterated and reported, each as
a failure (five outcomes are produced, not at most one), refuting the
claim that the run aborts as a fatal configuration error. -/
theorem C8_counterexample :
    (run_test_suite "http://localhost:3000" "" offlineEnv).caseResults.length = 5
    ∧ ¬ ((run_test_suite "http://localhost:3000" "" offlineEnv).caseResults.length ≤ 1)
    ∧ (run_test_suite "http://localhost:3000" "" offlineEnv).failed = 5 := by
  decide

/-- C8 (amended): when the API key is empty, every case fails its
configuration check before any HTTP request is sent — no transport
invocation occurs for any case, every case's outcome is a failure, and the
overall outcome is failure — but the suite is not aborted: every case
still runs and produces its own (failed) outcome. -/
theorem C8_missing_key_no_requests (url : String) (cases : List SuiteCase) (env : Env) :
    ((run_suite_on url "" cases env).caseResults.all
        (fun r => !r.invoked && !r.passed) = true)
    ∧ (run_suite_on url "" cases env).caseResults.length = cases.length
    ∧ (run_suite_on url "" cases env).passed = 0
    ∧ (run_suite_on url "" cases env).failed = cases.length
    ∧ (run_test_suite url "" env).allPassed = false := by
  have h := runCases_empty_key url env cases 1
  have hts := tally_spec (runCases url "" env 1 cases) 0 0
  refine ⟨h.1, runCases_length url "" env cases 1, ?_, ?_, ?_⟩
  · simp only [run_suite_on, hts, Nat.zero_add, h.2.1]
    rfl
  · simp only [run_suite_on, hts, Nat.zero_add, h.2.2]
    exact runCases_length url "" env cases 1
  · have h5 := runCases_empty_key url env image_test_cases 1
    have hts5 := tally_spec (runCases url "" env 1 image_test_cases) 0 0
    simp only [run_test_suite, run_suite_on, hts5, Nat.zero_add, h5.2.2]
    rw [runCases_length url "" env image_test_cases 1]
    decide

/-- C9 counterexample: the output path of case 1 is
`/tmp/image_test_1.json`, which is not (and does not even end with) the
`case_1.json` pattern the claim states. -/
theorem C9_counterexample :
    outputPath 1 ≠ spec_output_path 1
    ∧ List.isSuffixOf (spec_output_path 1).data (outputPath 1).data = false
    ∧ outputPath 1 = "/tmp/image_test_1.json"
    ∧ spec_output_path 1 = "case_1.json" := by
  decide

/-- C9 (amended): the output path of the i-th case is derived from its
1-based index as `/tmp/image_test_<i>.json` (not `case_<i>.json`), so the
five suite cases are written to five pairwise distinct paths. -/
theorem C9_output_paths_distinct (url apiKey : String) (env : Env) :
    (run_test_suite url apiKey env).caseResults.map (fun r => r.outputFile)
      = [outputPath 1, outputPath 2, outputPath 3, outputPath 4, outputPath 5]
    ∧ List.Pairwise (fun a b => a ≠ b)
        [outputPath 1, outputPath 2, outputPath 3, outputPath 4, outputPath 5] := by
  constructor
  · simp [run_test_suite, run_suite_on, image_test_cases, runCases, test_outputFile]
  · decide

/-- C10: in suite mode the script's behaviour depends only on `--url` and
`--api-key`: two argument records agreeing on those two fields (both with
`--run-suite`) produce the same exit code, and every request payload a
suite run sends carries `size = "1024x1024"` whatever the `--size`
argument was (the suite passes the hardcoded literal and its hardcoded
five-case list, ignoring `--model`, `--prompt`, `--format` and
`--output`). -/
theorem C10_suite_ignores_cli (a b : Args) (env : Env)
    (ha : a.runSuite = true) (hb : b.runSuite = true)
    (hurl : a.url = b.url) (hkey : a.apiKey = b.apiKey) :
    main_exit a env = main_exit b env
    ∧ ((run_test_suite a.url a.apiKey env).caseResults.all
        (fun r => payloadSize1024 r.sentPayload)) = true := by
  constructor
  · simp [main_exit, ha, hb, hurl, hkey]
  · exact runCases_payload_size a.url a.apiKey env image_test_cases 1

/-- C10 witness: the theorem applied to two concrete argument records that
differ in `--model`, `--prompt`, `--size`, `--format`, `--output` and
`--verbose` but share `--url` and `--api-key`. -/
theorem C10_witness :
    (argsSuiteA.runSuite = true ∧ argsSuiteB.runSuite = true
      ∧ argsSuiteA.url = argsSuiteB.url ∧ argsSuiteA.apiKey = argsSuiteB.apiKey)
    ∧ (main_exit argsSuiteA healthyEnv = main_exit argsSuiteB healthyEnv
       ∧ ((run_test_suite argsSuiteA.url argsSuiteA.apiKey healthyEnv).caseResults.all
           (fun r => payloadSize1024 r.sentPayload)) = true) :=
  ⟨⟨rfl, rfl, rfl, rfl⟩,
   C10_suite_ignores_cli argsSuiteA argsSuiteB healthyEnv rfl rfl rfl rfl⟩

end Claims

